import Mathlib

/-!
Verification of the render-surface `GraphClient` (graphClient.ts) of the
vscode-cosmosdb repository.

The client is a single-threaded state machine driven by socket messages
(`setPageState`, `showResults`, `showQueryError`).  We embed its observable
state (state class, JSON text area, error text area, stats line, the graph
DOM elements `.vertex`/`.edge`/`.label`, and the d3 force simulations it
creates) as a Lean structure, and each handler/method of the class as a pure
state-transition function translated statement by statement from the source.

Foreign d3 behaviour that the client code does not control (coordinates
computed by the physics engine, SVG pan/zoom transforms) is outside the
model; what is modelled is exactly what the client code itself creates,
removes, starts and stops.
-/

/-- `maxNodes` constant from the source (node cap). -/
def maxNodes : Nat := 300

/-- `maxEdges` constant from the source (edge cap). -/
def maxEdges : Nat := 1000

/-- `defaultQuery` constant from the source. -/
def defaultQuery : String := "g.V()"

/-- The string constant the source compares `type` against for vertices. -/
def vertexType : String := "vertex"

/-- The string constant the source compares `type` against for edges. -/
def edgeType : String := "edge"

/--
A result record.  In the source records are duck-typed JSON objects
(`ResultNode` / `ResultEdge` interfaces); we model the fields the client
reads.  `type`, `inV`, `outV` are `Option` because arbitrary query
projections may omit them (`undefined` in TS).
-/
structure ResultNode where
  id : String
  type : Option String
  inV : Option String
  outV : Option String
deriving DecidableEq

/-- `ForceNode` wrapper: created as `{ vertex: v }`; the `x`/`y` coordinates
are written only by the external d3 engine and are not part of the clients
own state transitions, so they are not modelled. -/
structure ForceNode where
  vertex : ResultNode
deriving DecidableEq

/-- `ForceLink` wrapper `{ edge, source, target }`. -/
structure ForceLink where
  edge : ResultNode
  source : ForceNode
  target : ForceNode
deriving DecidableEq

/-- The state classes of the `#states` element (type `State` in the source). -/
inductive State where
  | empty
  | querying
  | error
  | jsonResults
  | graphResults
deriving DecidableEq

/-- The `view` field of `PageState` (the string union of json and graph). -/
inductive ViewKind where
  | json
  | graph
deriving DecidableEq

/-- `PageState` as sent by the host in `setPageState` (the handler also reads
`runningQueryId`, which the TS type omits but the host supplies). -/
structure PageState where
  queryResults : List ResultNode
  edgeResults : List ResultNode
  isQueryRunning : Bool
  runningQueryId : Int
  errorMessage : Option String
  query : String
  view : ViewKind

/-- One d3 force simulation created by `displayGraph`
(`d3.layout.force().nodes(nodes).links(links)`); `active` records whether it
is running (between `start()` and `stop()`), which also covers its tick
handler being live. -/
structure Sim where
  nodes : List ForceNode
  links : List ForceLink
  active : Bool
deriving DecidableEq

/-- A graph DOM element inside the svg: the `.edge` lines, `.label` texts and
`.vertex` circles appended by `displayGraph` and removed by `clearGraph`. -/
inductive GraphElem where
  | edgeElem (l : ForceLink)
  | labelElem (n : ForceNode)
  | vertexElem (n : ForceNode)
deriving DecidableEq

def isVertexElem : GraphElem → Bool
  | .vertexElem _ => true
  | _ => false

def isEdgeElem : GraphElem → Bool
  | .edgeElem _ => true
  | _ => false

/--
The observable state of a `GraphClient` instance together with the DOM it
controls.  `sims` lists every simulation ever created on this render
surface, in creation order; `this._force` of the source is the last entry.
`logMessages` collects everything passed to `this.log`.
-/
structure ClientState where
  currentQueryId : Int
  graphView : Bool
  queryInput : String
  stateClass : State
  jsonResults : List ResultNode
  queryError : String
  statsLine : String
  graphElems : List GraphElem
  sims : List Sim
  graphRadioChecked : Bool
  jsonRadioChecked : Bool
  graphSectionActive : Bool
  jsonSectionActive : Bool
  logMessages : List String
deriving DecidableEq

/-- `this.log(s)` (the socket emit is host-side; the entry is recorded). -/
def logMsg (s : ClientState) (m : String) : ClientState :=
  { s with logMessages := s.logMessages ++ [m] }

/-- `_setState(state)`: sets the class of the `#states` element. -/
def _setState (st : State) (s : ClientState) : ClientState :=
  { s with stateClass := st }

/-- `clearGraph()`: removes every `.vertex`, `.edge`, `.label` element from
the svg.  Note it touches nothing else — in particular not `this._force`. -/
def clearGraph (s : ClientState) : ClientState :=
  { s with graphElems := [] }

/-- `setStateResults(hasGraph)`. -/
def setStateResults (hasGraph : Bool) (s : ClientState) : ClientState :=
  _setState (if hasGraph then State.graphResults else State.jsonResults) s

/-- `setStateQuerying()`: `_setState("querying"); this.clearGraph();`. -/
def setStateQuerying (s : ClientState) : ClientState :=
  clearGraph (_setState State.querying s)

/-- `setStateError(error)`: for the string errors delivered by
`showQueryError`/`setPageState`, `error.message || error.toString()` is the
string itself. -/
def setStateError (err : String) (s : ClientState) : ClientState :=
  clearGraph (_setState State.error { s with queryError := err })

/-- `setView()`: updates the radio buttons and the `active` classes of the
two sections from `this._graphView` (the host emit is host-side). -/
def setView (s : ClientState) : ClientState :=
  { s with
    graphRadioChecked := s.graphView
    jsonRadioChecked := !s.graphView
    graphSectionActive := s.graphView
    jsonSectionActive := !s.graphView }

/-- `selectGraphView()`. -/
def selectGraphView (s : ClientState) : ClientState :=
  setView { s with graphView := true }

/-- `selectJsonView()`. -/
def selectJsonView (s : ClientState) : ClientState :=
  setView { s with graphView := false }

/-- `splitVerticesAndEdges(nodes)`: filters by `n.type === "vertex"` and
`n.type === "edge"`. -/
def splitVerticesAndEdges (nodes : List ResultNode) :
    List ResultNode × List ResultNode :=
  (nodes.filter (fun n => n.type = some vertexType),
   nodes.filter (fun n => n.type = some edgeType))

/-- The node list of `displayGraph`:
`vertices.slice(0, maxNodes).map(v => { vertex: v })`. -/
def dgNodes (vertices : List ResultNode) : List ForceNode :=
  (vertices.take maxNodes).map (fun v => { vertex := v })

/-- One `nodesById.set(n.vertex.id, n)` step: a later `set` for the same key
overwrites an earlier one. -/
def nodesByIdStep (m : String → Option ForceNode) (n : ForceNode) :
    String → Option ForceNode :=
  fun id => if id = n.vertex.id then some n else m id

/-- The `nodesById` map after `nodes.forEach(n => nodesById.set(...))`. -/
def nodesById (nodes : List ForceNode) : String → Option ForceNode :=
  nodes.foldl nodesByIdStep (fun _ => none)

/-- `nodesById.get(e.inV)` where the field may be `undefined`: a missing key
(or a missing field) yields `undefined`. -/
def getEndpoint (nodes : List ForceNode) (v : Option String) :
    Option ForceNode :=
  match v with
  | none => none
  | some id => nodesById nodes id

/-- The body of the `edges.forEach` loop: resolve `inV`/`outV` against
`nodesById`; push a link only when both endpoints exist. -/
def resolveEdge (nodes : List ForceNode) (e : ResultNode) : Option ForceLink :=
  match getEndpoint nodes e.inV, getEndpoint nodes e.outV with
  | some sourceN, some targetN =>
      some { edge := e, source := sourceN, target := targetN }
  | _, _ => none

/-- The link list before the edge cap (the `links` array after the loop). -/
def resolveLinks (nodes : List ForceNode) (edges : List ResultNode) :
    List ForceLink :=
  edges.filterMap (resolveEdge nodes)

/-- The link list of `displayGraph`: `links.slice(0, maxEdges)`, applied
after endpoint resolution. -/
def dgLinks (nodes : List ForceNode) (edges : List ResultNode) :
    List ForceLink :=
  (resolveLinks nodes edges).take maxEdges

def statsAllA : String := "Displaying all "
def statsVertAnd : String := " vertices and "
def statsEdgesSuffix : String := " edges"
def statsSomeA : String := "Displaying "
def statsOf : String := " of "

/-- The `statsText` template literal of `displayGraph`. -/
def statsText (vertices edges : List ResultNode) : String :=
  let nodes := dgNodes vertices
  let links := dgLinks nodes edges
  if nodes.length = vertices.length ∧ links.length = edges.length then
    statsAllA ++ toString nodes.length ++ statsVertAnd ++
      toString links.length ++ statsEdgesSuffix
  else
    statsSomeA ++ toString nodes.length ++ statsOf ++
      toString vertices.length ++ statsVertAnd ++ toString links.length ++
      statsOf ++ toString edges.length ++ statsEdgesSuffix

/-- `this._force.stop()` applied to the current (last created) simulation,
guarded by `if (this._force)`. -/
def deactivateLast : List Sim → List Sim
  | [] => []
  | [sim] => [{ sim with active := false }]
  | x :: y :: xs => x :: deactivateLast (y :: xs)

/-- `force.start()` on the just-created (last) simulation. -/
def activateLast : List Sim → List Sim
  | [] => []
  | [sim] => [{ sim with active := true }]
  | x :: y :: xs => x :: activateLast (y :: xs)

/--
The statements of the `try` block of `displayGraph`, in source order, as
state transitions: clear the svg; set the stats text; stop the previous
simulation if any; create the new simulation (configured with `nodes` and
`links`, not yet started); append the `.edge` lines, then the `.label`
texts, then the `.vertex` circles; finally `force.start()`.
-/
def displayGraphSteps (vertices edges : List ResultNode) :
    List (ClientState → ClientState) :=
  let nodes := dgNodes vertices
  let links := dgLinks nodes edges
  [ clearGraph,
    fun s => { s with statsLine := statsText vertices edges },
    fun s => { s with sims := deactivateLast s.sims },
    fun s => { s with sims :=
      s.sims ++ [{ nodes := nodes, links := links, active := false }] },
    fun s => { s with graphElems :=
      s.graphElems ++ links.map GraphElem.edgeElem },
    fun s => { s with graphElems :=
      s.graphElems ++ nodes.map GraphElem.labelElem },
    fun s => { s with graphElems :=
      s.graphElems ++ nodes.map GraphElem.vertexElem },
    fun s => { s with sims := activateLast s.sims } ]

/--
Runs a statement list with an optional injected exception: `some (n, m)`
throws an exception with message `m` just before statement `n` executes
(remaining statements are skipped and the world at the throw point is
carried with the error, as in TS).
-/
def runBody (steps : List (ClientState → ClientState))
    (fail : Option (Nat × String)) (s : ClientState) :
    Except (String × ClientState) ClientState :=
  match steps, fail with
  | [], _ => Except.ok s
  | _ :: _, some (0, m) => Except.error (m, s)
  | f :: fs, some (n + 1, m) => runBody fs (some (n, m)) (f s)
  | f :: fs, none => runBody fs none (f s)

/-- The `try` block of `displayGraph`. -/
def displayGraphBody (vertices edges : List ResultNode)
    (fail : Option (Nat × String)) (s : ClientState) :
    Except (String × ClientState) ClientState :=
  runBody (displayGraphSteps vertices edges) fail s

/-- `displayGraph(vertices, edges)`: the try block with the catch
`catch (err) { this.log(err); }` at the render boundary. -/
def displayGraph (vertices edges : List ResultNode)
    (fail : Option (Nat × String)) (s : ClientState) : ClientState :=
  match displayGraphBody vertices edges fail s with
  | Except.ok s1 => s1
  | Except.error (m, sAt) => logMsg sAt m

/-- The arguments `showResults` passes to `displayGraph`, or `none` when the
vertex list is empty and the early `return` is taken. -/
def showResultsCall (queryResults edgeResults : List ResultNode) :
    Option (List ResultNode × List ResultNode) :=
  let vertices := (splitVerticesAndEdges queryResults).1
  let edges := (splitVerticesAndEdges queryResults).2
  if vertices.length = 0 then none
  else some (vertices, edges ++ edgeResults)

/-- `showResults(queryResults, edgeResults)`: always writes the JSON text
area from `queryResults` (never `edgeResults`); with no vertices sets
`json-results` and returns; otherwise folds in the out-of-band edges, sets
`graph-results` and calls `displayGraph`. -/
def showResults (queryResults edgeResults : List ResultNode)
    (s : ClientState) : ClientState :=
  let s1 := { s with jsonResults := queryResults }
  match showResultsCall queryResults edgeResults with
  | none => setStateResults false s1
  | some (vertices, edges) =>
      displayGraph vertices edges none (setStateResults true s1)

def recvResultsA : String := "Received results for query "
def recvResultsB : String := " - "
def recvResultsC : String := " data points, plus "
def recvResultsD : String := " edges"
def ignoreResultsMsg : String := "  Ignoring results, out of date"
def recvErrorA : String := "Received error for query "
def ignoreErrorMsg : String := "  Ignoring error, out of date"

/-- The `showResults` socket handler. -/
def onShowResults (queryId : Int) (queryResults edgeResults : List ResultNode)
    (s : ClientState) : ClientState :=
  let s1 := logMsg s (recvResultsA ++ toString queryId ++ recvResultsB ++
    toString queryResults.length ++ recvResultsC ++
    toString edgeResults.length ++ recvResultsD)
  if queryId ≠ s1.currentQueryId then logMsg s1 ignoreResultsMsg
  else showResults queryResults edgeResults s1

/-- The `showQueryError` socket handler. -/
def onShowQueryError (queryId : Int) (err : String) (s : ClientState) :
    ClientState :=
  let s1 := logMsg s (recvErrorA ++ toString queryId ++ recvResultsB ++ err)
  if queryId ≠ s1.currentQueryId then logMsg s1 ignoreErrorMsg
  else setStateError err s1

/-- Truthiness of `pageState.errorMessage` (`undefined` and `""` are falsy). -/
def strOptFalsy : Option String → Bool
  | none => true
  | some m => m.isEmpty

def emptyStr : String := ""

/-- The `setPageState` socket handler. -/
def onSetPageState (p : PageState) (s : ClientState) : ClientState :=
  let s1 := { s with queryInput := p.query }
  if p.isQueryRunning then
    setStateQuerying { s1 with currentQueryId := p.runningQueryId }
  else
    let s2 :=
      if strOptFalsy p.errorMessage then
        showResults p.queryResults p.edgeResults s1
      else setStateError (p.errorMessage.getD emptyStr) s1
    if p.view = ViewKind.json then selectJsonView s2 else selectGraphView s2

/-- `query(gremlin)`: bump the id, emit to host, enter the querying state. -/
def query (s : ClientState) : ClientState :=
  setStateQuerying { s with currentQueryId := s.currentQueryId + 1 }

/-- The client state right after the constructor (`queryInput` set to the
default query, `setStateEmpty()`), before any message arrives. -/
def initialState : ClientState :=
  { currentQueryId := 0
    graphView := false
    queryInput := defaultQuery
    stateClass := State.empty
    jsonResults := []
    queryError := emptyStr
    statsLine := emptyStr
    graphElems := []
    sims := []
    graphRadioChecked := false
    jsonRadioChecked := false
    graphSectionActive := false
    jsonSectionActive := false
    logMessages := [] }

/-! ### Helper lemmas -/

/-- A normal (exception-free) run of `displayGraph` in closed form. -/
theorem displayGraph_none_eq (vertices edges : List ResultNode)
    (s : ClientState) :
    displayGraph vertices edges none s =
      { s with
        statsLine := statsText vertices edges
        graphElems :=
          (dgLinks (dgNodes vertices) edges).map GraphElem.edgeElem ++
            (dgNodes vertices).map GraphElem.labelElem ++
            (dgNodes vertices).map GraphElem.vertexElem
        sims := activateLast (deactivateLast s.sims ++
          [{ nodes := dgNodes vertices,
             links := dgLinks (dgNodes vertices) edges,
             active := false }]) } := rfl

theorem runBody_none_ok (steps : List (ClientState → ClientState)) :
    ∀ s : ClientState, ∃ s1, runBody steps none s = Except.ok s1 := by
  induction steps with
  | nil => intro s; exact ⟨s, rfl⟩
  | cons f fs ih => intro s; exact ih (f s)

theorem runBody_fail (steps : List (ClientState → ClientState)) :
    ∀ (n : Nat) (m : String) (s : ClientState), n < steps.length →
      ∃ sa, runBody steps (some (n, m)) s = Except.error (m, sa) := by
  induction steps with
  | nil => intro n m s h; exact absurd h (Nat.not_lt_zero n)
  | cons f fs ih =>
      intro n m s h
      match n with
      | 0 => exact ⟨s, rfl⟩
      | Nat.succ k =>
          exact ih k m (f s) (Nat.lt_of_succ_lt_succ h)

/-- An edge contributes a link exactly when both endpoints resolve. -/
theorem resolveLinks_length (nodes : List ForceNode) (edges : List ResultNode) :
    (resolveLinks nodes edges).length =
      (edges.filter (fun e => (getEndpoint nodes e.inV).isSome &&
        (getEndpoint nodes e.outV).isSome)).length := by
  induction edges with
  | nil => rfl
  | cons a as ih =>
      simp only [resolveLinks, List.filterMap_cons, List.filter_cons] at *
      cases h1 : getEndpoint nodes a.inV <;>
        cases h2 : getEndpoint nodes a.outV <;>
        simp [resolveEdge, h1, h2, ih]

theorem nodesById_foldl_some (nodes : List ForceNode) :
    ∀ (m0 : String → Option ForceNode) (id : String) (n : ForceNode),
      (nodes.foldl nodesByIdStep m0) id = some n →
      m0 id = some n ∨ (n ∈ nodes ∧ n.vertex.id = id) := by
  induction nodes with
  | nil => intro m0 id n h; exact Or.inl h
  | cons x xs ih =>
      intro m0 id n h
      rcases ih (nodesByIdStep m0 x) id n h with h1 | h2
      · unfold nodesByIdStep at h1
        by_cases hid : id = x.vertex.id
        · rw [if_pos hid] at h1
          refine Or.inr ⟨?_, ?_⟩
          · rw [← Option.some_inj.mp h1]; exact List.mem_cons_self x xs
          · rw [← Option.some_inj.mp h1, hid]
        · rw [if_neg hid] at h1
          exact Or.inl h1
      · exact Or.inr ⟨List.mem_cons_of_mem x h2.1, h2.2⟩

/-- A successful `nodesById.get` returns one of the inserted nodes, keyed by
its own id. -/
theorem nodesById_some (nodes : List ForceNode) (id : String) (n : ForceNode)
    (h : nodesById nodes id = some n) : n ∈ nodes ∧ n.vertex.id = id := by
  rcases nodesById_foldl_some nodes (fun _ => none) id n h with h1 | h2
  · exact absurd h1 (by simp)
  · exact h2

/-- A resolved link records its edge and its two resolved endpoints. -/
theorem resolveEdge_some (nodes : List ForceNode) (e : ResultNode)
    (l : ForceLink) (h : resolveEdge nodes e = some l) :
    l.edge = e ∧ getEndpoint nodes e.inV = some l.source ∧
      getEndpoint nodes e.outV = some l.target := by
  unfold resolveEdge at h
  cases h1 : getEndpoint nodes e.inV <;> cases h2 : getEndpoint nodes e.outV <;>
    rw [h1, h2] at h <;> simp at h
  rcases h with rfl | _
  exact ⟨rfl, by simp [h1], by simp [h2]⟩

theorem activateLast_append_singleton (l : List Sim) (x : Sim) :
    activateLast (l ++ [x]) = l ++ [{ x with active := true }] := by
  induction l with
  | nil => rfl
  | cons a as ih =>
      cases as with
      | nil => rfl
      | cons b bs => simpa [activateLast] using ih

theorem deactivateLast_inactive (l : List Sim)
    (h : ∀ x ∈ l.dropLast, x.active = false) :
    ∀ x ∈ deactivateLast l, x.active = false := by
  induction l with
  | nil => intro x hx; simp [deactivateLast] at hx
  | cons a as ih =>
      cases as with
      | nil =>
          intro x hx
          simp [deactivateLast] at hx
          rw [hx]
      | cons b bs =>
          intro x hx
          simp only [deactivateLast, List.mem_cons] at hx
          rcases hx with rfl | hx
          · exact h x (by simp [List.dropLast])
          · refine ih ?_ x hx
            intro y hy
            exact h y (by simp [List.dropLast] at hy ⊢; exact Or.inr hy)

/-! ### Concrete sample records -/

def vertexA : ResultNode :=
  { id := "a", type := some vertexType, inV := none, outV := none }

def vertexB : ResultNode :=
  { id := "b", type := some vertexType, inV := none, outV := none }

def idA : String := "a"
def idB : String := "b"
def idZz : String := "zz"

def edgeE1 : ResultNode :=
  { id := "e1", type := some edgeType, inV := some idA, outV := some idB }

/-- An edge whose `inV` id matches no vertex. -/
def danglingEdge : ResultNode :=
  { id := "ex", type := some edgeType, inV := some idZz, outV := some idA }

/-- A record that is neither a vertex nor an edge (no `type` field). -/
def plainRecord : ResultNode :=
  { id := "x", type := none, inV := none, outV := none }

def fooType : String := "foo"

/-- A record whose `type` is neither vertex nor edge but which carries
resolvable `inV`/`outV` ids. -/
def oddRecord : ResultNode :=
  { id := "o1", type := some fooType, inV := some idA, outV := some idB }

/-- Whether a graph element is a rendered link whose edge is `r`. -/
def isLinkFor (r : ResultNode) : GraphElem → Bool
  | .edgeElem l => l.edge == r
  | _ => false

def sampleErr : String := "oops"

/-! ### Claims -/

/--
Claim C1: for every incoming `showResults(id, results, edges)` or
`showQueryError(id, err)` message received by `GraphClient`, if `id` is not
the clients current query id, the message is discarded with only a log
entry: restoring the log field of the handlers result yields the original
state, so no displayed state (state class, JSON text, error text, graph,
simulations, stats, view controls) is altered.
-/
theorem C1_stale_reply_discarded (queryId : Int)
    (queryResults edgeResults : List ResultNode) (err : String)
    (s : ClientState) (h : queryId ≠ s.currentQueryId) :
    { onShowResults queryId queryResults edgeResults s with
        logMessages := s.logMessages } = s ∧
    { onShowQueryError queryId err s with
        logMessages := s.logMessages } = s := by
  constructor
  · simp only [onShowResults, logMsg]
    rw [if_pos h]
  · simp only [onShowQueryError, logMsg]
    rw [if_pos h]

theorem C1_witness :
    ((5 : Int) ≠ initialState.currentQueryId) ∧
    ({ onShowResults 5 [] [] initialState with
         logMessages := initialState.logMessages } = initialState ∧
     { onShowQueryError 5 sampleErr initialState with
         logMessages := initialState.logMessages } = initialState) :=
  ⟨by decide, C1_stale_reply_discarded 5 [] [] sampleErr initialState (by decide)⟩

theorem filter_isVertexElem_edge (l : List ForceLink) :
    (l.map GraphElem.edgeElem).filter isVertexElem = [] := by
  induction l with
  | nil => rfl
  | cons a as ih => simp [isVertexElem, ih]

theorem filter_isVertexElem_label (l : List ForceNode) :
    (l.map GraphElem.labelElem).filter isVertexElem = [] := by
  induction l with
  | nil => rfl
  | cons a as ih => simp [isVertexElem, ih]

theorem filter_isVertexElem_vertex (l : List ForceNode) :
    (l.map GraphElem.vertexElem).filter isVertexElem =
      l.map GraphElem.vertexElem := by
  induction l with
  | nil => rfl
  | cons a as ih => simp [isVertexElem, ih]

theorem filter_isEdgeElem_edge (l : List ForceLink) :
    (l.map GraphElem.edgeElem).filter isEdgeElem =
      l.map GraphElem.edgeElem := by
  induction l with
  | nil => rfl
  | cons a as ih => simp [isEdgeElem, ih]

theorem filter_isEdgeElem_label (l : List ForceNode) :
    (l.map GraphElem.labelElem).filter isEdgeElem = [] := by
  induction l with
  | nil => rfl
  | cons a as ih => simp [isEdgeElem, ih]

theorem filter_isEdgeElem_vertex (l : List ForceNode) :
    (l.map GraphElem.vertexElem).filter isEdgeElem = [] := by
  induction l with
  | nil => rfl
  | cons a as ih => simp [isEdgeElem, ih]

/--
Claim C2: `displayGraph` renders exactly `min (N, 300)` vertex circles for a
vertex list of length `N`, and exactly `min (K, 1000)` edge lines, where `K`
counts the edges whose `inV` and `outV` both resolve in the capped vertex
set (the edge cap being applied after endpoint resolution).
-/
theorem C2_render_caps (vertices edges : List ResultNode) (s : ClientState) :
    ((displayGraph vertices edges none s).graphElems.filter
        isVertexElem).length = min vertices.length maxNodes ∧
    ((displayGraph vertices edges none s).graphElems.filter
        isEdgeElem).length =
      min ((edges.filter (fun e =>
        (getEndpoint (dgNodes vertices) e.inV).isSome &&
        (getEndpoint (dgNodes vertices) e.outV).isSome)).length) maxEdges := by
  rw [displayGraph_none_eq]
  constructor
  · rw [List.filter_append, List.filter_append, filter_isVertexElem_edge,
      filter_isVertexElem_label, filter_isVertexElem_vertex]
    simp only [List.nil_append, List.length_append, List.length_nil,
      List.length_map, dgNodes, List.length_take]
    omega
  · rw [List.filter_append, List.filter_append, filter_isEdgeElem_edge,
      filter_isEdgeElem_label, filter_isEdgeElem_vertex]
    simp only [List.append_nil, List.length_append, List.length_nil,
      List.length_map, dgLinks, List.length_take, resolveLinks_length]
    omega

/--
Claim C3: an edge whose `inV` or `outV` id is absent from the capped vertex
set never appears as a rendered link, and the exception-free run of
`displayGraph` completes normally (dropping the edge raises no error).
-/
theorem C3_dangling_edge_dropped (vertices edges : List ResultNode)
    (e : ResultNode) (_hmem : e ∈ edges)
    (habs : e.inV ∉ (dgNodes vertices).map (fun n => some n.vertex.id) ∨
            e.outV ∉ (dgNodes vertices).map (fun n => some n.vertex.id)) :
    (∀ l ∈ dgLinks (dgNodes vertices) edges, l.edge ≠ e) ∧
    (∀ s : ClientState, ∃ s1,
      displayGraphBody vertices edges none s = Except.ok s1) := by
  constructor
  · intro l hl heq
    have hl1 : l ∈ resolveLinks (dgNodes vertices) edges :=
      List.take_subset _ _ hl
    rcases List.mem_filterMap.mp hl1 with ⟨e2, _, hres⟩
    rcases resolveEdge_some _ _ _ hres with ⟨hedge, hsrc, htgt⟩
    have he2 : e2 = e := hedge.symm.trans heq
    rw [he2] at hsrc htgt
    rcases habs with habs | habs
    · cases hin : e.inV with
      | none => rw [hin] at hsrc; exact Option.noConfusion hsrc
      | some id =>
          rw [hin] at hsrc
          rcases nodesById_some _ _ _ hsrc with ⟨hmemN, hid⟩
          exact habs (by
            rw [hin]
            exact List.mem_map.mpr ⟨l.source, hmemN, by rw [hid]⟩)
    · cases hout : e.outV with
      | none => rw [hout] at htgt; exact Option.noConfusion htgt
      | some id =>
          rw [hout] at htgt
          rcases nodesById_some _ _ _ htgt with ⟨hmemN, hid⟩
          exact habs (by
            rw [hout]
            exact List.mem_map.mpr ⟨l.target, hmemN, by rw [hid]⟩)
  · intro s
    exact runBody_none_ok _ s

theorem C3_witness :
    (danglingEdge ∈ [danglingEdge] ∧
     danglingEdge.inV ∉
       (dgNodes [vertexA]).map (fun n => some n.vertex.id)) ∧
    ((∀ l ∈ dgLinks (dgNodes [vertexA]) [danglingEdge],
        l.edge ≠ danglingEdge) ∧
     (∀ s : ClientState, ∃ s1,
        displayGraphBody [vertexA] [danglingEdge] none s = Except.ok s1)) :=
  ⟨⟨by decide, by decide⟩,
   C3_dangling_edge_dropped [vertexA] [danglingEdge] danglingEdge
     (by decide) (Or.inl (by decide))⟩

/-- With no vertex records, `showResults` takes the early JSON-only return. -/
theorem showResults_noVertices (qr er : List ResultNode) (s : ClientState)
    (h : qr.filter (fun n => n.type = some vertexType) = []) :
    showResults qr er s =
      setStateResults false { s with jsonResults := qr } := by
  unfold showResults
  simp [showResultsCall, splitVerticesAndEdges, h]

/--
Claim C4: a result set with zero `type === "vertex"` records forces JSON-only
display — the state class becomes `json-results`, no graph is built (the DOM
elements and the simulation list are untouched) — both in a direct
`showResults` and when replayed through `setPageState`, whatever the stored
view preference.
-/
theorem C4_no_vertices_forces_json
    (queryResults edgeResults : List ResultNode) (p : PageState)
    (s : ClientState)
    (h1 : queryResults.filter (fun n => n.type = some vertexType) = [])
    (h2 : p.isQueryRunning = false)
    (h3 : strOptFalsy p.errorMessage = true)
    (h4 : p.queryResults.filter (fun n => n.type = some vertexType) = []) :
    ((showResults queryResults edgeResults s).stateClass =
        State.jsonResults ∧
     (showResults queryResults edgeResults s).graphElems = s.graphElems ∧
     (showResults queryResults edgeResults s).sims = s.sims) ∧
    ((onSetPageState p s).stateClass = State.jsonResults ∧
     (onSetPageState p s).graphElems = s.graphElems ∧
     (onSetPageState p s).sims = s.sims) := by
  constructor
  · rw [showResults_noVertices _ _ _ h1]
    simp [setStateResults, _setState]
  · simp only [onSetPageState]
    rw [showResults_noVertices _ _ _ h4]
    cases hp : p.view <;>
      simp [h2, h3, selectJsonView, selectGraphView, setView,
        setStateResults, _setState]

theorem C4_witness :
    (([plainRecord] : List ResultNode).filter
        (fun n => n.type = some vertexType) = [] ∧
     PageState.isQueryRunning
        { queryResults := [plainRecord], edgeResults := [],
          isQueryRunning := false, runningQueryId := 0,
          errorMessage := none, query := defaultQuery,
          view := ViewKind.graph } = false) ∧
    (((showResults [plainRecord] [] initialState).stateClass =
        State.jsonResults ∧
      (showResults [plainRecord] [] initialState).graphElems =
        initialState.graphElems ∧
      (showResults [plainRecord] [] initialState).sims =
        initialState.sims) ∧
     ((onSetPageState
        { queryResults := [plainRecord], edgeResults := [],
          isQueryRunning := false, runningQueryId := 0,
          errorMessage := none, query := defaultQuery,
          view := ViewKind.graph } initialState).stateClass =
        State.jsonResults ∧
      (onSetPageState
        { queryResults := [plainRecord], edgeResults := [],
          isQueryRunning := false, runningQueryId := 0,
          errorMessage := none, query := defaultQuery,
          view := ViewKind.graph } initialState).graphElems =
        initialState.graphElems ∧
      (onSetPageState
        { queryResults := [plainRecord], edgeResults := [],
          isQueryRunning := false, runningQueryId := 0,
          errorMessage := none, query := defaultQuery,
          view := ViewKind.graph } initialState).sims =
        initialState.sims)) :=
  ⟨⟨by decide, by decide⟩,
   C4_no_vertices_forces_json [plainRecord] []
     { queryResults := [plainRecord], edgeResults := [],
       isQueryRunning := false, runningQueryId := 0,
       errorMessage := none, query := defaultQuery,
       view := ViewKind.graph } initialState
     (by decide) (by decide) (by decide) (by decide)⟩

set_option maxRecDepth 10000 in
/--
Claim C5: the stats line uses the `Displaying all …` form exactly when the
rendered node count equals the vertex count and the rendered link count
equals the edge count (no truncation on either axis), and the
`X of Y … and X of Y …` form otherwise — both counters carrying the
qualifier together; in particular the two concrete examples of the claim.
-/
theorem C5_stats_line :
    (∀ vertices edges : List ResultNode,
        (dgNodes vertices).length = vertices.length →
        (dgLinks (dgNodes vertices) edges).length = edges.length →
        statsText vertices edges =
          statsAllA ++ toString vertices.length ++ statsVertAnd ++
            toString edges.length ++ statsEdgesSuffix) ∧
    (∀ vertices edges : List ResultNode,
        ¬ ((dgNodes vertices).length = vertices.length ∧
           (dgLinks (dgNodes vertices) edges).length = edges.length) →
        statsText vertices edges =
          statsSomeA ++ toString (dgNodes vertices).length ++ statsOf ++
            toString vertices.length ++ statsVertAnd ++
            toString (dgLinks (dgNodes vertices) edges).length ++ statsOf ++
            toString edges.length ++ statsEdgesSuffix) ∧
    statsText [vertexA, vertexB] [edgeE1] =
      "Displaying all 2 vertices and 1 edges" ∧
    statsText (List.replicate 350 vertexA) [] =
      "Displaying 300 of 350 vertices and 0 of 0 edges" := by
  refine ⟨?_, ?_, ?_, ?_⟩
  · intro vertices edges ha hb
    unfold statsText
    rw [if_pos ⟨ha, hb⟩, ha, hb]
  · intro vertices edges h
    unfold statsText
    rw [if_neg h]
  · decide
  · decide

set_option maxRecDepth 10000 in
theorem C5_witness :
    (statsText [vertexA] [] =
      statsAllA ++ toString ([vertexA] : List ResultNode).length ++
        statsVertAnd ++ toString ([] : List ResultNode).length ++
        statsEdgesSuffix) ∧
    (statsText (List.replicate 301 vertexA) [] =
      statsSomeA ++
        toString (dgNodes (List.replicate 301 vertexA)).length ++ statsOf ++
        toString (List.replicate 301 vertexA).length ++ statsVertAnd ++
        toString (dgLinks (dgNodes (List.replicate 301 vertexA)) []).length ++
        statsOf ++ toString ([] : List ResultNode).length ++
        statsEdgesSuffix) :=
  ⟨C5_stats_line.1 [vertexA] [] (by decide) (by decide),
   C5_stats_line.2.1 (List.replicate 301 vertexA) [] (by decide)⟩

/--
Claim C6: under the render-surface invariant that only the most recently
created simulation can be active, `displayGraph` stops any previously
running simulation before starting the new one, leaving exactly one active
simulation (the new one) afterwards.
-/
theorem C6_single_active_sim (vertices edges : List ResultNode)
    (s : ClientState)
    (hinv : ∀ sim ∈ s.sims.dropLast, sim.active = false) :
    ((displayGraph vertices edges none s).sims.filter
        (fun sim => sim.active)).length = 1 ∧
    (∀ sim ∈ (displayGraph vertices edges none s).sims.dropLast,
        sim.active = false) := by
  rw [displayGraph_none_eq]
  simp only []
  rw [activateLast_append_singleton]
  have hde : ∀ sim ∈ deactivateLast s.sims, sim.active = false :=
    deactivateLast_inactive s.sims hinv
  constructor
  · rw [List.filter_append]
    rw [List.filter_eq_nil_iff.mpr (by
      intro a ha hact
      exact absurd (hde a ha) (by simp [hact]))]
    simp
  · rw [List.dropLast_concat]
    exact hde

theorem C6_witness :
    ((displayGraph [vertexA] [] none initialState).sims.filter
        (fun sim => sim.active)).length = 1 ∧
    (∀ sim ∈ (displayGraph [vertexA] [] none initialState).sims.dropLast,
        sim.active = false) :=
  C6_single_active_sim [vertexA] [] initialState (by simp [initialState])

/--
Claim C7 counterexample: display a graph (which starts a force simulation),
then transition into the querying state.  `clearGraph` runs and empties the
svg, but the force simulation created by the preceding `displayGraph` is
still active afterwards — `clearGraph` does not tear down the simulation,
contradicting the claim that every graph-render entity including the force
simulation is torn down on that transition.
-/
theorem C7_cex :
    ((setStateQuerying (displayGraph [vertexA] [] none
        initialState)).sims.filter (fun sim => sim.active)).length = 1 ∧
    (setStateQuerying (displayGraph [vertexA] [] none
        initialState)).stateClass = State.querying ∧
    (setStateQuerying (displayGraph [vertexA] [] none
        initialState)).graphElems = [] := by
  decide

/--
Claim C7 (amended): `clearGraph` runs on every transition into the querying
state and on every transition into the error state (the only producers of
those states), and removes all graph DOM elements (`.vertex`, `.edge`,
`.label`) created by the preceding `displayGraph`; the force simulation is
not stopped or discarded by these transitions — it is stopped only when the
next `displayGraph` replaces it.
-/
theorem C7_amended (s : ClientState) (err : String) :
    (setStateQuerying s).stateClass = State.querying ∧
    (setStateQuerying s).graphElems = [] ∧
    (setStateQuerying s).sims = s.sims ∧
    (setStateError err s).stateClass = State.error ∧
    (setStateError err s).graphElems = [] ∧
    (setStateError err s).sims = s.sims := by
  simp [setStateQuerying, setStateError, clearGraph, _setState]

/--
Claim C8: whenever the accepted result set contains at least one vertex, the
edge set handed to graph construction is the `type === "edge"` records of
the primary result set concatenated with the out-of-band edge list, its
length the sum of both (duplicates retained, no deduplication).
-/
theorem C8_edge_union (queryResults edgeResults : List ResultNode)
    (h : queryResults.filter (fun n => n.type = some vertexType) ≠ []) :
    showResultsCall queryResults edgeResults =
      some (queryResults.filter (fun n => n.type = some vertexType),
            queryResults.filter (fun n => n.type = some edgeType) ++
              edgeResults) ∧
    ∀ vertices edges, showResultsCall queryResults edgeResults =
        some (vertices, edges) →
      edges.length =
        (queryResults.filter (fun n => n.type = some edgeType)).length +
          edgeResults.length := by
  have hlen :
      ¬ (queryResults.filter (fun n => n.type = some vertexType)).length
        = 0 := by
    intro h0
    exact h (List.length_eq_zero.mp h0)
  have hcall : showResultsCall queryResults edgeResults =
      some (queryResults.filter (fun n => n.type = some vertexType),
            queryResults.filter (fun n => n.type = some edgeType) ++
              edgeResults) := by
    simp only [showResultsCall, splitVerticesAndEdges]
    rw [if_neg hlen]
  refine ⟨hcall, ?_⟩
  intro vertices edges heq
  rw [hcall] at heq
  rcases Prod.mk.injEq .. ▸ Option.some_inj.mp heq with ⟨-, hedges⟩
  rw [← hedges]
  simp

theorem C8_witness :
    (([vertexA, edgeE1] : List ResultNode).filter
        (fun n => n.type = some vertexType) ≠ []) ∧
    (showResultsCall [vertexA, edgeE1] [edgeE1] =
      some (([vertexA, edgeE1] : List ResultNode).filter
              (fun n => n.type = some vertexType),
            ([vertexA, edgeE1] : List ResultNode).filter
              (fun n => n.type = some edgeType) ++ [edgeE1]) ∧
     ∀ vertices edges, showResultsCall [vertexA, edgeE1] [edgeE1] =
         some (vertices, edges) →
       edges.length =
         (([vertexA, edgeE1] : List ResultNode).filter
             (fun n => n.type = some edgeType)).length +
           ([edgeE1] : List ResultNode).length) :=
  ⟨by decide, C8_edge_union [vertexA, edgeE1] [edgeE1] (by decide)⟩

/--
Claim C9 counterexample: an exception injected at the label-append statement
(step index 5) of `displayGraph` is caught at the render boundary and
logged, but the view is NOT left in the cleared state: the `.edge` line
appended before the failure remains while no `.vertex` circle exists — a
partially rendered view.  This refutes the part of the claim that says the
view is left in the last-good cleared state.
-/
theorem C9_cex :
    ((displayGraph [vertexA, vertexB] [edgeE1] (some (5, sampleErr))
        initialState).graphElems ≠ []) ∧
    (((displayGraph [vertexA, vertexB] [edgeE1] (some (5, sampleErr))
        initialState).graphElems.filter isEdgeElem).length = 1) ∧
    (((displayGraph [vertexA, vertexB] [edgeE1] (some (5, sampleErr))
        initialState).graphElems.filter isVertexElem) = []) ∧
    sampleErr ∈ (displayGraph [vertexA, vertexB] [edgeE1]
        (some (5, sampleErr)) initialState).logMessages := by
  decide

/--
Claim C9 (amended): every exception thrown during graph construction or
rendering inside `displayGraph` is caught at the render boundary and logged,
and never propagates out of `displayGraph`; the catch performs no cleanup,
so the view keeps exactly whatever had been drawn up to the failure point
(the cleared state only when the failure precedes the first drawing step).
-/
theorem C9_caught_and_logged (vertices edges : List ResultNode) (n : Nat)
    (m : String) (s : ClientState)
    (h : n < (displayGraphSteps vertices edges).length) :
    ∃ sa, displayGraphBody vertices edges (some (n, m)) s =
        Except.error (m, sa) ∧
      displayGraph vertices edges (some (n, m)) s = logMsg sa m ∧
      m ∈ (displayGraph vertices edges (some (n, m)) s).logMessages := by
  rcases runBody_fail (displayGraphSteps vertices edges) n m s h with ⟨sa, hsa⟩
  have hb : displayGraphBody vertices edges (some (n, m)) s =
      Except.error (m, sa) := hsa
  refine ⟨sa, hb, ?_, ?_⟩
  · unfold displayGraph
    rw [hb]
  · unfold displayGraph
    rw [hb]
    simp [logMsg]

theorem C9_witness :
    (0 < (displayGraphSteps [] []).length) ∧
    (∃ sa, displayGraphBody [] [] (some (0, sampleErr)) initialState =
        Except.error (sampleErr, sa) ∧
      displayGraph [] [] (some (0, sampleErr)) initialState =
        logMsg sa sampleErr ∧
      sampleErr ∈ (displayGraph [] [] (some (0, sampleErr))
        initialState).logMessages) :=
  ⟨by decide, C9_caught_and_logged [] [] 0 sampleErr initialState (by decide)⟩

/--
Claim C10 counterexample: `showResults` concatenates the out-of-band edge
list into the edge set without any type filter, and endpoint resolution
checks only `inV`/`outV`.  So a record of the accepted result set whose
`type` is neither `"vertex"` nor `"edge"` IS rendered as a link when the
same record is also supplied in the out-of-band edge list and its endpoints
resolve — refuting the claim that such records never become rendered links.
-/
theorem C10_cex :
    oddRecord ∈ ([vertexA, vertexB, oddRecord] : List ResultNode) ∧
    oddRecord.type ≠ some vertexType ∧
    oddRecord.type ≠ some edgeType ∧
    ((showResults [vertexA, vertexB, oddRecord] [oddRecord]
        initialState).graphElems.filter (isLinkFor oddRecord)).length = 1 := by
  decide

/--
Claim C10 (amended): a record of the accepted result set whose `type` is
neither exactly `"vertex"` nor exactly `"edge"` never becomes a rendered
node, and — provided the same record is not also supplied in the unfiltered
out-of-band edge list — never becomes a rendered link; it is part of the
JSON diagnostic text, which serializes exactly the primary result set and
never the out-of-band edge list.
-/
theorem C10_other_records (queryResults edgeResults : List ResultNode)
    (r : ResultNode) (s : ClientState)
    (hmem : r ∈ queryResults)
    (hv : r.type ≠ some vertexType) (he : r.type ≠ some edgeType)
    (her : r ∉ edgeResults) :
    (showResults queryResults edgeResults s).jsonResults = queryResults ∧
    r ∈ (showResults queryResults edgeResults s).jsonResults ∧
    ∀ vertices edges, showResultsCall queryResults edgeResults =
        some (vertices, edges) →
      (∀ n ∈ dgNodes vertices, n.vertex ≠ r) ∧
      (∀ l ∈ dgLinks (dgNodes vertices) edges, l.edge ≠ r) := by
  have hjson : (showResults queryResults edgeResults s).jsonResults =
      queryResults := by
    unfold showResults
    rcases hc : showResultsCall queryResults edgeResults with - | ⟨vertices, edges⟩
    · simp [hc, setStateResults, _setState]
    · simp only [hc]
      rw [displayGraph_none_eq]
      simp [setStateResults, _setState]
  refine ⟨hjson, by rw [hjson]; exact hmem, ?_⟩
  intro vertices edges heq
  simp only [showResultsCall, splitVerticesAndEdges] at heq
  by_cases hz :
      (queryResults.filter (fun n => n.type = some vertexType)).length = 0
  · rw [if_pos hz] at heq
    exact Option.noConfusion heq
  · rw [if_neg hz] at heq
    rcases Prod.mk.injEq .. ▸ Option.some_inj.mp heq with ⟨hverts, hedges⟩
    constructor
    · intro n hn hnr
      rcases List.mem_map.mp hn with ⟨v, hvmem, hvn⟩
      have hvv : v ∈ vertices := List.take_subset _ _ hvmem
      rw [← hverts] at hvv
      have : v.type = some vertexType :=
        of_decide_eq_true ((List.mem_filter.mp hvv).2)
      rw [← hvn] at hnr
      have hvr : v = r := hnr
      rw [hvr] at this
      exact hv this
    · intro l hl hlr
      have hl1 : l ∈ resolveLinks (dgNodes vertices) edges :=
        List.take_subset _ _ hl
      rcases List.mem_filterMap.mp hl1 with ⟨e2, he2, hres⟩
      rcases resolveEdge_some _ _ _ hres with ⟨hedge, -, -⟩
      rw [hlr] at hedge
      rw [← hedge] at he2
      rw [← hedges] at he2
      rcases List.mem_append.mp he2 with hcase | hcase
      · exact he (of_decide_eq_true ((List.mem_filter.mp hcase).2))
      · exact her hcase

theorem C10_witness :
    (plainRecord ∈ ([vertexA, plainRecord] : List ResultNode) ∧
     plainRecord.type ≠ some vertexType ∧
     plainRecord.type ≠ some edgeType ∧
     plainRecord ∉ ([] : List ResultNode)) ∧
    ((showResults [vertexA, plainRecord] [] initialState).jsonResults =
       [vertexA, plainRecord] ∧
     plainRecord ∈
       (showResults [vertexA, plainRecord] [] initialState).jsonResults ∧
     ∀ vertices edges, showResultsCall [vertexA, plainRecord] [] =
         some (vertices, edges) →
       (∀ n ∈ dgNodes vertices, n.vertex ≠ plainRecord) ∧
       (∀ l ∈ dgLinks (dgNodes vertices) edges, l.edge ≠ plainRecord)) :=
  ⟨⟨by decide, by decide, by decide, by decide⟩,
   C10_other_records [vertexA, plainRecord] [] plainRecord initialState
     (by decide) (by decide) (by decide) (by decide)⟩
